import Mathlib

/-!
Verification of the D-ai-Trader Multi-Source Signal Fusion & Adaptive
Decision Engine against its natural-language specification.

The repository ships the decision-engine as documentation
(`INTELLIGENCE_SOURCES.md` and the unnamed README parts) together with the
dashboard front-end (`static/js/dashboard.js`).  The engine itself is not
present as executable code, so its components are modelled from the spec;
the dashboard functions are translated from `dashboard.js` directly.
Numbers are embedded as exact rationals.
-/

namespace DTrader

/-- Direction of one source's opinion (spec §3, SignalRecord). -/
inductive Direction where
  | BULLISH
  | BEARISH
  | NEUTRAL
deriving DecidableEq, Repr

/-- Trading action (spec §3, Decision). -/
inductive Action where
  | BUY
  | SELL
  | HOLD
deriving DecidableEq, Repr

/-- Risk level of an economic event (spec §3, EconomicEvent). -/
inductive RiskLevel where
  | LOW
  | MEDIUM
  | HIGH
deriving DecidableEq, Repr

/-- Modelled from the spec: a normalized SignalRecord (spec §3); the code
that builds these records is not in the repository.  Only the fields the
fusion and blocker components read are kept: source identifier, direction
and confidence in [0,1]. -/
structure SignalRecord where
  source_id : String
  direction : Direction
  confidence : ℚ
deriving DecidableEq, Repr

/-- Modelled from the spec: one scheduled EconomicEvent (spec §3); the
calendar-fetching code is not in the repository.  The blocker only reads
the risk level of today's events. -/
structure EconomicEvent where
  name : String
  risk_level : RiskLevel
deriving DecidableEq, Repr

/-- clamp(x, lo, hi), the saturating bound used throughout the spec. -/
def clamp (x lo hi : ℚ) : ℚ :=
  max lo (min x hi)

/-- Modelled from the spec: the Decision Resolver (spec §4.4), whose
implementation is absent from the repository.  Rules evaluated in order:
blocked → HOLD; BUY with net_score < −15 → HOLD; HOLD with
net_score > 25 → BUY; otherwise the baseline action unchanged. -/
def resolveDecision (baseline : Action) (net_score : ℚ) (blocked : Bool) : Action :=
  if blocked then Action.HOLD
  else if baseline = Action.BUY ∧ net_score < -15 then Action.HOLD
  else if baseline = Action.HOLD ∧ net_score > 25 then Action.BUY
  else baseline

/-- Does some event of today's list carry HIGH risk? -/
def anyHighRiskEvent (events : List EconomicEvent) : Bool :=
  events.any (fun e => e.risk_level = RiskLevel.HIGH)

/-- Is the news record present, bearish, and at confidence ≥ 0.70? -/
def strongBearishNews (news : Option SignalRecord) : Bool :=
  match news with
  | some r => r.direction = Direction.BEARISH ∧ r.confidence ≥ 0.7
  | none => false

/-- Modelled from the spec: the Blocker Evaluator (spec §4.2), whose
implementation is absent from the repository.  Checked in order: any HIGH
risk event today blocks with the scheduled-event reason; else strong
bearish news (BEARISH, confidence ≥ 0.70) blocks with the news reason;
else no block.  Returns the reason when blocked. -/
def checkBlockers (events : List EconomicEvent) (news : Option SignalRecord) :
    Option String :=
  if anyHighRiskEvent events then some "scheduled high-impact event"
  else if strongBearishNews news then some "strong bearish news"
  else none

/-- The blocked flag derived from the Blocker Evaluator. -/
def blocked (events : List EconomicEvent) (news : Option SignalRecord) : Bool :=
  (checkBlockers events news).isSome

/-- A SourceWeight table (spec §3): source identifier paired with its
weight. -/
def WeightTable : Type :=
  List (String × ℚ)

/-- The weight the table assigns to a source (0 when the source is not
listed). -/
def weightOf (tbl : WeightTable) (s : String) : ℚ :=
  match tbl.find? (fun p => p.1 = s) with
  | some p => p.2
  | none => 0

/-- Modelled from the spec: per-record contribution of the Weighted Fusion
Scorer (spec §4.3), whose implementation is absent from the repository:
weight(source) × confidence × 100, signed by direction. -/
def contribution (tbl : WeightTable) (r : SignalRecord) : ℚ :=
  match r.direction with
  | Direction.BULLISH => weightOf tbl r.source_id * r.confidence * 100
  | Direction.BEARISH => -(weightOf tbl r.source_id * r.confidence * 100)
  | Direction.NEUTRAL => 0

/-- The fused aggregate (spec §3, FusionResult), restricted to the numeric
fields the claims read. -/
structure FusionResult where
  bullish_score : ℚ
  bearish_score : ℚ
  net_score : ℚ
  confidence : ℚ
deriving DecidableEq, Repr

/-- Modelled from the spec: the Weighted Fusion Scorer (spec §4.3), whose
implementation is absent from the repository.  bullish_score sums the
positive contributions, bearish_score sums the magnitudes of the negative
ones, net_score is their difference and confidence = clamp(50 + net, 0, 100). -/
def fuseSignals (tbl : WeightTable) (sigs : List SignalRecord) : FusionResult :=
  let contribs := sigs.map (contribution tbl)
  let bull := (contribs.filter (fun c => 0 < c)).sum
  let bear := ((contribs.filter (fun c => c < 0)).map (fun c => -c)).sum
  { bullish_score := bull
    bearish_score := bear
    net_score := bull - bear
    confidence := clamp (50 + (bull - bear)) 0 100 }

/-- Modelled from the spec: average of the present individual boosts
(spec §4.5); absent sources are excluded and zero present boosts default
the average to 1.0.  The sizing implementation is absent from the
repository. -/
def average_individual (boosts : List ℚ) : ℚ :=
  if boosts.isEmpty then 1 else boosts.sum / boosts.length

/-- Modelled from the spec: product of the present macro adjustments
(spec §4.5); absent sources are excluded, acting as a neutral 1.0. -/
def adjustmentProduct (adjs : List ℚ) : ℚ :=
  adjs.prod

/-- Modelled from the spec: the Position Sizing Calculator's result
(spec §4.5): clamp(average_individual × product of adjustments, 0.4, 2.0). -/
def final_multiplier (boosts adjs : List ℚ) : ℚ :=
  clamp (average_individual boosts * adjustmentProduct adjs) 0.4 2

/-- Presence pattern for the six individual-boost sources (spec §4.5):
news, options, insiders, social, short-squeeze, trends; `none` means the
source produced no record this cycle. -/
structure BoostInputs where
  news : Option ℚ
  options : Option ℚ
  insiders : Option ℚ
  social : Option ℚ
  squeeze : Option ℚ
  trends : Option ℚ
deriving DecidableEq, Repr

/-- Presence pattern for the three macro-adjustment sources (spec §4.5):
economic-risk, macro-regime, crypto-risk. -/
structure AdjustInputs where
  economic : Option ℚ
  regime : Option ℚ
  crypto : Option ℚ
deriving DecidableEq, Repr

/-- The list of present individual boosts, in source order. -/
def presentBoosts (b : BoostInputs) : List ℚ :=
  [b.news, b.options, b.insiders, b.social, b.squeeze, b.trends].filterMap id

/-- The list of present macro adjustments, in source order. -/
def presentAdjusts (a : AdjustInputs) : List ℚ :=
  [a.economic, a.regime, a.crypto].filterMap id

/-- Is the optional value, when present, inside [lo, hi]? -/
def inRange (lo hi : ℚ) : Option ℚ → Prop
  | some x => lo ≤ x ∧ x ≤ hi
  | none => True

instance (lo hi : ℚ) (o : Option ℚ) : Decidable (inRange lo hi o) := by
  cases o <;> simp [inRange] <;> infer_instance

/-- Each present individual boost lies in its declared per-source range
(spec §4.5 and the source table in INTELLIGENCE_SOURCES.md): news and
options 0.5–1.5, insiders 0.7–1.8, social 0.6–1.6, squeeze 1.0–2.0,
trends 0.8–1.4. -/
def boostRangesOK (b : BoostInputs) : Prop :=
  inRange 0.5 1.5 b.news ∧ inRange 0.5 1.5 b.options ∧ inRange 0.7 1.8 b.insiders ∧
    inRange 0.6 1.6 b.social ∧ inRange 1 2 b.squeeze ∧ inRange 0.8 1.4 b.trends

/-- Each present macro adjustment lies in its declared range (spec §4.5):
economic-risk 0.5–1.0, macro-regime 0.6–1.3, crypto-risk 0.7–1.2. -/
def adjustRangesOK (a : AdjustInputs) : Prop :=
  inRange 0.5 1 a.economic ∧ inRange 0.6 1.3 a.regime ∧ inRange 0.7 1.2 a.crypto

/-- Safe-Mode status tiers (spec §3, DangerScore). -/
inductive SafeStatus where
  | NORMAL
  | CAUTION
  | ELEVATED
  | CRITICAL
deriving DecidableEq, Repr

/-- Modelled from the spec: the Safe-Mode Risk Governor's status
assignment (spec §4.6), whose implementation is absent from the
repository (the dashboard only renders the served status, with matching
colour thresholds at 40/60/80 in `updateSafeModeInfo`):
score < 40 → NORMAL, [40,60) → CAUTION, [60,80) → ELEVATED, ≥ 80 → CRITICAL. -/
def dangerStatus (score : ℚ) : SafeStatus :=
  if score < 40 then SafeStatus.NORMAL
  else if score < 60 then SafeStatus.CAUTION
  else if score < 80 then SafeStatus.ELEVATED
  else SafeStatus.CRITICAL

/-- Translated from `static/js/dashboard.js`, `updateRiskBreakdown`:
the (high, medium, low) allocation split shown for a risk level; the
`switch` falls through to the moderate split for any other string. -/
def updateRiskBreakdown (level : String) : ℕ × ℕ × ℕ :=
  if level = "conservative" then (10, 20, 70)
  else if level = "aggressive" then (40, 35, 25)
  else (20, 30, 50)

/-- JavaScript truthiness of an optional numeric field: absent (null or
undefined) and the number 0 are falsy. -/
def jsTruthy : Option ℚ → Bool
  | some x => x ≠ 0
  | none => false

/-- Translated from `static/js/dashboard.js`, `updateTrades`: the CSS
class of the P&L cell, from
`trade.pnl && trade.pnl >= 0 ? "pnl-positive" : "pnl-negative"` —
the guard is the JS conjunction, so a falsy pnl (absent or 0) short
circuits to the negative class. -/
def pnlCellClass (pnl : Option ℚ) : String :=
  if jsTruthy pnl ∧ 0 ≤ pnl.getD 0 then "pnl-positive" else "pnl-negative"

/-- Translated from `static/js/dashboard.js`, `updateTrades`: the P&L
cell content, from `trade.pnl ? formatCurrency(trade.pnl) : "--"`;
`some x` stands for the formatted amount formatCurrency(x) and `none`
for the literal "--" placeholder. -/
def pnlCellText (pnl : Option ℚ) : Option ℚ :=
  if jsTruthy pnl then some (pnl.getD 0) else none

/-- The core directional weight table (spec §3): news 0.20, options 0.18,
insiders 0.17, overnight 0.15, social 0.12, short-interest 0.10,
trends 0.08. -/
def coreWeights : WeightTable :=
  [("news", 0.20), ("options", 0.18), ("insiders", 0.17), ("overnight", 0.15),
    ("social", 0.12), ("short", 0.10), ("trends", 0.08)]

/-- Scenario C's five present bullish records (spec §8): news 0.82,
options 0.78, insiders 0.85, social 0.80, trends 0.70, all BULLISH. -/
def scenarioCSignals : List SignalRecord :=
  [⟨"news", Direction.BULLISH, 0.82⟩, ⟨"options", Direction.BULLISH, 0.78⟩,
    ⟨"insiders", Direction.BULLISH, 0.85⟩, ⟨"social", Direction.BULLISH, 0.80⟩,
    ⟨"trends", Direction.BULLISH, 0.70⟩]

end DTrader

namespace DTrader

/-- C1: the Decision Resolver applies its rules in the fixed order and
returns the first that fires: blocked forces HOLD for every baseline and
net score; otherwise a BUY baseline becomes HOLD exactly when
net_score < −15, a HOLD baseline becomes BUY exactly when net_score > 25,
a SELL baseline passes through, and the boundary values −15 and 25 do not
trigger an override (in particular BUY with net_score in [−15, 0] stays
BUY). -/
theorem decision_resolver_rule_order (b : Action) (n : ℚ) :
    resolveDecision b n true = Action.HOLD ∧
    resolveDecision Action.BUY n false = (if n < -15 then Action.HOLD else Action.BUY) ∧
    resolveDecision Action.HOLD n false = (if n > 25 then Action.BUY else Action.HOLD) ∧
    resolveDecision Action.SELL n false = Action.SELL ∧
    resolveDecision Action.BUY (-15) false = Action.BUY ∧
    resolveDecision Action.HOLD 25 false = Action.HOLD := by
  refine ⟨rfl, ?_, ?_, ?_, ?_, ?_⟩
  · by_cases h : n < -15 <;> simp [resolveDecision, h]
  · by_cases h : n > 25 <;> simp [resolveDecision, h]
  · simp [resolveDecision]
  · norm_num [resolveDecision]
  · norm_num [resolveDecision]

/-- C3: the Decision Resolver's output is SELL only when the baseline
action is already SELL — the override paths never introduce or flip to
SELL. -/
theorem resolver_sell_only_from_baseline (b : Action) (n : ℚ) (bl : Bool)
    (h : resolveDecision b n bl = Action.SELL) : b = Action.SELL := by
  cases b with
  | SELL => rfl
  | BUY =>
      exfalso
      cases bl with
      | true => exact absurd h (by simp [resolveDecision])
      | false =>
          by_cases hn : n < -15 <;> simp [resolveDecision, hn] at h
  | HOLD =>
      exfalso
      cases bl with
      | true => exact absurd h (by simp [resolveDecision])
      | false =>
          by_cases hn : n > 25 <;> simp [resolveDecision, hn] at h

/-- Witness for C3: at baseline SELL, net score 0 and no block, the
resolver does return SELL and the theorem yields SELL = SELL. -/
theorem resolver_sell_only_from_baseline_witness : Action.SELL = Action.SELL :=
  resolver_sell_only_from_baseline Action.SELL 0 false (by norm_num [resolveDecision])

/-- C2: per record the contribution is weight(source) × confidence × 100
signed by the direction; bullish_score sums the positive contributions,
bearish_score sums the magnitudes of the negative ones, net_score is
bullish − bearish, confidence is clamp(50 + net, 0, 100); and zero present
signals give net_score 0 and confidence 50 rather than an error. -/
theorem fusion_scorer_spec (tbl : WeightTable) (sigs : List SignalRecord)
    (s : String) (c : ℚ) :
    contribution tbl ⟨s, Direction.BULLISH, c⟩ = weightOf tbl s * c * 100 ∧
    contribution tbl ⟨s, Direction.BEARISH, c⟩ = -(weightOf tbl s * c * 100) ∧
    contribution tbl ⟨s, Direction.NEUTRAL, c⟩ = 0 ∧
    (fuseSignals tbl sigs).bullish_score =
      (((sigs.map (contribution tbl)).filter (fun x => 0 < x)).sum) ∧
    (fuseSignals tbl sigs).bearish_score =
      ((((sigs.map (contribution tbl)).filter (fun x => x < 0)).map (fun x => -x)).sum) ∧
    (fuseSignals tbl sigs).net_score =
      (fuseSignals tbl sigs).bullish_score - (fuseSignals tbl sigs).bearish_score ∧
    (fuseSignals tbl sigs).confidence = clamp (50 + (fuseSignals tbl sigs).net_score) 0 100 ∧
    (fuseSignals tbl []).net_score = 0 ∧
    (fuseSignals tbl []).confidence = 50 := by
  refine ⟨rfl, rfl, rfl, rfl, rfl, rfl, rfl, ?_, ?_⟩
  · simp [fuseSignals]
  · norm_num [fuseSignals, clamp]

/-- C4: the Blocker Evaluator blocks exactly when some event of today has
HIGH risk or the news record is present, BEARISH and at confidence ≥ 0.70;
when a HIGH-risk event is present the reason is the scheduled-event one
regardless of the news record; a BEARISH news record at confidence exactly
0.70 blocks with the bearish-news reason; otherwise not blocked. -/
theorem blocker_evaluator_spec (events : List EconomicEvent)
    (news : Option SignalRecord) (nm s : String) (rest : List EconomicEvent) :
    (blocked events news = true ↔
      (∃ e ∈ events, e.risk_level = RiskLevel.HIGH) ∨
      (∃ r, news = some r ∧ r.direction = Direction.BEARISH ∧ r.confidence ≥ 0.7)) ∧
    checkBlockers (⟨nm, RiskLevel.HIGH⟩ :: rest) news = some "scheduled high-impact event" ∧
    checkBlockers [] (some ⟨s, Direction.BEARISH, 0.7⟩) = some "strong bearish news" := by
  refine ⟨?_, ?_, ?_⟩
  · simp only [blocked, checkBlockers, anyHighRiskEvent, strongBearishNews]
    constructor
    · intro h
      by_cases he : events.any (fun e => decide (e.risk_level = RiskLevel.HIGH)) = true
      · left
        simpa using he
      · right
        rw [if_neg (by simpa using he)] at h
        cases news with
        | none => simp at h
        | some r =>
            refine ⟨r, rfl, ?_⟩
            by_contra hc
            rw [if_neg ?_] at h
            · simp at h
            · simpa using hc
    · intro h
      rcases h with he | ⟨r, hr, hd, hc⟩
      · rw [if_pos (by simpa using he)]
        rfl
      · by_cases hev : events.any (fun e => decide (e.risk_level = RiskLevel.HIGH)) = true
        · rw [if_pos (by simpa using hev)]
          rfl
        · rw [if_neg (by simpa using hev), hr, if_pos (by simpa using ⟨hd, hc⟩)]
          rfl
  · simp [checkBlockers, anyHighRiskEvent]
  · norm_num [checkBlockers, anyHighRiskEvent, strongBearishNews]

/-- C5: average_individual is the arithmetic mean of the present
individual boosts only (1.0 when none are present), adjustmentProduct the
product of the present macro adjustments only, and the Position Sizing
Calculator returns clamp of their product into [0.4, 2.0]; Scenario D
(boosts 1.3, 1.3, 1.5, 1.2 with macro 1.0) yields 1.325, unclamped. -/
theorem position_sizing_spec (x : ℚ) (bs adjs : List ℚ) :
    average_individual [] = 1 ∧
    average_individual (x :: bs) = (x :: bs).sum / (x :: bs).length ∧
    adjustmentProduct adjs = adjs.prod ∧
    final_multiplier bs adjs = clamp (average_individual bs * adjustmentProduct adjs) 0.4 2 ∧
    presentBoosts ⟨some 1.3, some 1.3, some 1.5, some 1.2, none, none⟩ = [1.3, 1.3, 1.5, 1.2] ∧
    average_individual [1.3, 1.3, 1.5, 1.2] = 1.325 ∧
    adjustmentProduct [1] = 1 ∧
    average_individual [1.3, 1.3, 1.5, 1.2] * adjustmentProduct [1] = 1.325 ∧
    final_multiplier [1.3, 1.3, 1.5, 1.2] [1] = 1.325 := by
  refine ⟨rfl, by simp [average_individual], rfl, rfl, rfl, ?_, ?_, ?_, ?_⟩
  · norm_num [average_individual, List.sum]
  · norm_num [adjustmentProduct]
  · norm_num [average_individual, adjustmentProduct, List.sum]
  · norm_num [final_multiplier, average_individual, adjustmentProduct, clamp, List.sum]

/-- Any clamp into [lo, hi] with lo ≤ hi lands in [lo, hi]. -/
theorem clamp_le_and_ge (x lo hi : ℚ) (h : lo ≤ hi) :
    lo ≤ clamp x lo hi ∧ clamp x lo hi ≤ hi :=
  ⟨le_max_left lo _, max_le h (min_le_right x hi)⟩

/-- C6: for every presence combination of individual-boost and
macro-adjustment sources with all present values inside their declared
per-source ranges, the final position multiplier lies in [0.4, 2.0]. -/
theorem final_multiplier_bounds (b : BoostInputs) (a : AdjustInputs)
    (hb : boostRangesOK b) (ha : adjustRangesOK a) :
    0.4 ≤ final_multiplier (presentBoosts b) (presentAdjusts a) ∧
    final_multiplier (presentBoosts b) (presentAdjusts a) ≤ 2 :=
  clamp_le_and_ge _ 0.4 2 (by norm_num)

/-- Witness for C6: Scenario D's presence pattern satisfies every range
bound and its final multiplier lies in [0.4, 2.0]. -/
theorem final_multiplier_bounds_witness :
    0.4 ≤ final_multiplier
        (presentBoosts ⟨some 1.3, some 1.3, some 1.5, some 1.2, none, none⟩)
        (presentAdjusts ⟨none, some 1, none⟩) ∧
    final_multiplier
        (presentBoosts ⟨some 1.3, some 1.3, some 1.5, some 1.2, none, none⟩)
        (presentAdjusts ⟨none, some 1, none⟩) ≤ 2 :=
  final_multiplier_bounds ⟨some 1.3, some 1.3, some 1.5, some 1.2, none, none⟩
    ⟨none, some 1, none⟩
    (by refine ⟨?_, ?_, ?_, ?_, ?_, ?_⟩ <;> norm_num [inRange])
    (by refine ⟨?_, ?_, ?_⟩ <;> norm_num [inRange])

/-- C7: the Safe-Mode Risk Governor assigns status by inclusive lower
bounds — NORMAL below 40, CAUTION on [40, 60), ELEVATED on [60, 80),
CRITICAL from 80 up — and the boundaries are exact: 39.999 → NORMAL,
40 → CAUTION, 59.999 → CAUTION, 60 → ELEVATED, 79.999 → ELEVATED,
80 → CRITICAL. -/
theorem danger_status_tiers (s : ℚ) :
    (dangerStatus s = SafeStatus.NORMAL ↔ s < 40) ∧
    (dangerStatus s = SafeStatus.CAUTION ↔ 40 ≤ s ∧ s < 60) ∧
    (dangerStatus s = SafeStatus.ELEVATED ↔ 60 ≤ s ∧ s < 80) ∧
    (dangerStatus s = SafeStatus.CRITICAL ↔ 80 ≤ s) ∧
    dangerStatus 39.999 = SafeStatus.NORMAL ∧
    dangerStatus 40 = SafeStatus.CAUTION ∧
    dangerStatus 59.999 = SafeStatus.CAUTION ∧
    dangerStatus 60 = SafeStatus.ELEVATED ∧
    dangerStatus 79.999 = SafeStatus.ELEVATED ∧
    dangerStatus 80 = SafeStatus.CRITICAL := by
  refine ⟨?_, ?_, ?_, ?_, by norm_num [dangerStatus], by norm_num [dangerStatus],
    by norm_num [dangerStatus], by norm_num [dangerStatus], by norm_num [dangerStatus],
    by norm_num [dangerStatus]⟩ <;>
    unfold dangerStatus <;> split_ifs with h1 h2 h3 <;>
    constructor <;> intro h <;>
    first
      | rfl
      | linarith
      | exact ⟨by linarith, by linarith⟩
      | exact absurd h (by decide)

/-- C8: the preset risk-profile tiers map to the fixed high/medium/low
splits conservative 10/20/70, moderate 20/30/50, aggressive 40/35/25, and
the split shown for any risk level sums to 100. -/
theorem risk_breakdown_tiers (level : String) :
    updateRiskBreakdown "conservative" = (10, 20, 70) ∧
    updateRiskBreakdown "moderate" = (20, 30, 50) ∧
    updateRiskBreakdown "aggressive" = (40, 35, 25) ∧
    (updateRiskBreakdown level).1 + (updateRiskBreakdown level).2.1 +
      (updateRiskBreakdown level).2.2 = 100 := by
  refine ⟨by decide, by decide, by decide, ?_⟩
  unfold updateRiskBreakdown
  split_ifs <;> rfl

/-- The core table's weight for the news source. -/
theorem coreWeights_news : weightOf coreWeights "news" = 0.20 := rfl

/-- The core table's weight for the options source. -/
theorem coreWeights_options : weightOf coreWeights "options" = 0.18 := rfl

/-- The core table's weight for the insiders source. -/
theorem coreWeights_insiders : weightOf coreWeights "insiders" = 0.17 := rfl

/-- The core table's weight for the social source. -/
theorem coreWeights_social : weightOf coreWeights "social" = 0.12 := rfl

/-- The core table's weight for the trends source. -/
theorem coreWeights_trends : weightOf coreWeights "trends" = 0.08 := rfl

/-- C9 counterexample: in Scenario C the exact fused net score is 60.09
(= 6009/100), not 60.1 — the spec's figure sums the per-contribution
values after rounding them to one decimal place. -/
theorem scenarioC_net_score_not_60_1 :
    (fuseSignals coreWeights scenarioCSignals).net_score = 60.09 ∧
    (fuseSignals coreWeights scenarioCSignals).net_score ≠ 60.1 := by
  constructor <;>
    norm_num [fuseSignals, scenarioCSignals, contribution, coreWeights_news,
      coreWeights_options, coreWeights_insiders, coreWeights_social, coreWeights_trends,
      List.filter_cons, decide_eq_true_eq]

/-- C9 amended: in Scenario C the fused net score is exactly 60.09
(contributions 16.4, 14.04, 14.45, 9.6, 5.6), which exceeds the upgrade
threshold 25, so the Decision Resolver overrides the HOLD baseline to
BUY. -/
theorem scenarioC_net_score_and_override :
    (fuseSignals coreWeights scenarioCSignals).net_score = 60.09 ∧
    (60.09 : ℚ) > 25 ∧
    resolveDecision Action.HOLD (fuseSignals coreWeights scenarioCSignals).net_score false =
      Action.BUY := by
  have h : (fuseSignals coreWeights scenarioCSignals).net_score = 60.09 := by
    norm_num [fuseSignals, scenarioCSignals, contribution, coreWeights_news,
      coreWeights_options, coreWeights_insiders, coreWeights_social, coreWeights_trends,
      List.filter_cons, decide_eq_true_eq]
  refine ⟨h, by norm_num, ?_⟩
  rw [h]
  norm_num [resolveDecision]

/-- C10: in the dashboard's trade rendering, a trade whose pnl is exactly
0 shows the "--" placeholder and gets the negative-P&L style — identical
to a trade with no recorded pnl — because the JS guard
`trade.pnl && trade.pnl >= 0` treats 0 as absent, while every trade with
pnl > 0 gets the positive style and its formatted amount. -/
theorem trades_pnl_rendering (x : ℚ) :
    pnlCellClass (some 0) = "pnl-negative" ∧
    pnlCellText (some 0) = none ∧
    pnlCellClass (some 0) = pnlCellClass none ∧
    pnlCellText (some 0) = pnlCellText none ∧
    (0 < x → pnlCellClass (some x) = "pnl-positive" ∧ pnlCellText (some x) = some x) := by
  refine ⟨by decide, by decide, by decide, by decide, fun hx => ?_⟩
  constructor
  · simp [pnlCellClass, jsTruthy, ne_of_gt hx, le_of_lt hx]
  · simp [pnlCellText, jsTruthy, ne_of_gt hx]

/-- Witness for C10: a trade with pnl = 5 gets the positive style and its
formatted amount. -/
theorem trades_pnl_rendering_witness :
    pnlCellClass (some 5) = "pnl-positive" ∧ pnlCellText (some 5) = some 5 :=
  (trades_pnl_rendering 5).2.2.2.2 (by norm_num)

end DTrader
